import Mathlib

/-!
# Verification of the glide-TIC funding ledger

Shallow embedding of the account router of the glide-TIC demand-deposit
service (`server/routers/account.ts`, post-bug-fix revision documented in
`BUG_REPORT.md`: SEC-302, VAL-205/206/207, PERF-405/406 fixes applied) and of
the card-validation library (`lib/card-validation.ts`).

Modelling conventions:
* Monetary values are exact minor units (`Int` cents), following the spec's
  data model ("balance ... conceptually an integer number of minor units even
  if stored as decimal").  The zod bounds `0.01` and `10000` dollars become
  `1` and `1000000` cents.
* JavaScript `number` inputs, before zod validation, are modelled by `JSNum`,
  which distinguishes `NaN`, the two infinities and finite values.
* Timestamps (`created_at`, `processed_at`) are ISO-8601 strings in the
  source; SQLite compares such TEXT values lexicographically, which agrees
  with chronological order, so we model a timestamp by its rank in that total
  order as a `Nat`.
* The SQLite store is a `DB` value: the `accounts` and `transactions` tables
  as lists in rowid (insertion) order plus the autoincrement counters.
* `better-sqlite3`'s `rawDb.transaction(fn)()` commits all of `fn`'s writes
  or, if the engine fails to commit, rolls every write back; the `commitOk`
  parameter selects which of the two engine outcomes occurs.
* The account-number `while (!isUnique)` loop is modelled fuel-indexed:
  `accountNumberLoop ... fuel = none` means the loop has not produced a
  number within `fuel` iterations (it is still spinning); the source contains
  no retry cap, so no fatal-error path exists in the loop itself.
-/

deriving instance DecidableEq for Except

/-- Money in exact minor units (cents). -/
abbrev Money := Int

/-- A JavaScript `number` before zod validation: `NaN`, `±Infinity`, or a
finite value (taken exact, in minor units). -/
inductive JSNum where
  | nan
  | posInf
  | negInf
  | num (cents : Money)
deriving DecidableEq, Repr

/-- The amount is a finite, strictly positive number. -/
def JSNum.posFinite : JSNum → Prop
  | .num c => 0 < c
  | _ => False

instance : DecidablePred JSNum.posFinite := by
  intro j
  cases j <;> simp [JSNum.posFinite] <;> infer_instance

/-- A `TRPCError`: code plus message, as thrown by the router. -/
structure TrpcErr where
  code : String
  message : String
deriving DecidableEq, Repr

def errNotFound : TrpcErr := ⟨"NOT_FOUND", "Account not found"⟩

def errNotActive : TrpcErr := ⟨"BAD_REQUEST", "Account is not active"⟩

def errInternalCommit : TrpcErr :=
  ⟨"INTERNAL_SERVER_ERROR", "The storage engine failed to commit the transaction"⟩

/-! ## lib/card-validation.ts -/

/-- Characters removed by `cardNumber.replace(/[\s-]/g, "")`. -/
def isCardSeparator (c : Char) : Bool := c.isWhitespace || c == '-'

/-- `replace(/[\s-]/g, "")` on the character list of a card number. -/
def cleanCard (s : String) : List Char := s.toList.filter (fun c => !isCardSeparator c)

/-- `/^\d+$/.test` : non-empty and all decimal digits. -/
def allDigits (l : List Char) : Bool := !l.isEmpty && l.all (·.isDigit)

inductive CardType where
  | visa | mastercard | amex | discover | diners | jcb | unknown
deriving DecidableEq, Repr

/-- One entry of the `CARD_TYPES` table. -/
structure CardTypeInfo where
  type : CardType
  prefixList : List String
  lengths : List Nat
deriving Repr

/-- The `CARD_TYPES` table of `lib/card-validation.ts`. -/
def CARD_TYPES : List CardTypeInfo :=
  [ ⟨.visa, ["4"], [13, 16]⟩,
    ⟨.mastercard,
      ["51", "52", "53", "54", "55", "2221", "2222", "2223", "2224", "2225", "2226",
       "2227", "2228", "2229", "223", "224", "225", "226", "227", "228", "229", "23",
       "24", "25", "26", "270", "271", "2720"], [16]⟩,
    ⟨.amex, ["34", "37"], [15]⟩,
    ⟨.discover,
      ["6011", "622126", "622127", "622128", "622129", "62213", "62214", "62215",
       "62216", "62217", "62218", "62219", "6222", "6223", "6224", "6225", "6226",
       "6227", "6228", "62290", "62291", "622920", "622921", "622922", "622923",
       "622924", "622925", "644", "645", "646", "647", "648", "649", "65"], [16, 19]⟩,
    ⟨.diners, ["300", "301", "302", "303", "304", "305", "36", "38"], [14]⟩,
    ⟨.jcb, ["35"], [16]⟩ ]

/-- `l` starts with the characters of `p`. -/
def charsStartWith (l : List Char) (p : String) : Bool := p.toList.isPrefixOf l

/-- `detectCardType`: first `CARD_TYPES` entry with a matching prefix whose
length list contains the card's length, else `unknown`. -/
def detectCardType (cardNumber : String) : CardType :=
  let cleaned := cleanCard cardNumber
  if !allDigits cleaned then .unknown
  else
    match CARD_TYPES.find? (fun ct =>
      ct.prefixList.any (fun p => charsStartWith cleaned p) &&
      ct.lengths.contains cleaned.length) with
    | some ct => ct.type
    | none => .unknown

/-- Numeric value of a decimal digit character. -/
def digitVal (c : Char) : Nat := c.toNat - 48

/-- Luhn sum, processing digits right-to-left; `dbl` is the `isEven` flag
(`true` means the current digit is doubled). -/
def luhnSum : List Nat → Bool → Nat
  | [], _ => 0
  | d :: ds, dbl =>
    (if dbl then (if d * 2 > 9 then d * 2 - 9 else d * 2) else d) + luhnSum ds (!dbl)

/-- `validateLuhn` of `lib/card-validation.ts`. -/
def validateLuhn (cardNumber : String) : Bool :=
  let cleaned := cleanCard cardNumber
  if !allDigits cleaned then false
  else if cleaned.length < 13 then false
  else luhnSum (cleaned.reverse.map digitVal) false % 10 == 0

/-- `validateCardFormat`: `none` means the format is valid, `some e` is the
error message. -/
def validateCardFormat (cardNumber : String) : Option String :=
  let cleaned := cleanCard cardNumber
  if cleaned.length == 0 then some "Card number is required"
  else if !(cleaned.all (·.isDigit)) then some "Card number must contain only digits"
  else if cleaned.length < 13 then some "Card number is too short"
  else if cleaned.length > 19 then some "Card number is too long"
  else none

structure CardValidationResult where
  valid : Bool
  cardType : CardType
  errors : List String
deriving DecidableEq, Repr

/-- The per-type "cards must be ... digits" message built by
`validateCardNumber` (the format string precomputed for each card type). -/
def cardLengthErrorMsg : CardType → String
  | .visa => "Visa cards must be 13 or 16 digits"
  | .mastercard => "Mastercard cards must be 16 digits"
  | .amex => "Amex cards must be 15 digits"
  | .discover => "Discover cards must be 16 or 19 digits"
  | .diners => "Diners cards must be 14 digits"
  | .jcb => "Jcb cards must be 16 digits"
  | .unknown => ""

/-- `validateCardNumber` of `lib/card-validation.ts`. -/
def validateCardNumber (cardNumber : String) : CardValidationResult :=
  let cleaned := cleanCard cardNumber
  match validateCardFormat cardNumber with
  | some e => ⟨false, .unknown, [e]⟩
  | none =>
    let cardType := detectCardType ⟨cleaned⟩
    let errors₁ :=
      if cardType == .unknown then
        ["Card type not recognized. Supported: Visa, Mastercard, American Express, Discover, Diners Club, JCB"]
      else []
    let errors₂ :=
      if cardType != .unknown then
        match CARD_TYPES.find? (fun ct => ct.type == cardType) with
        | some info =>
          if !info.lengths.contains cleaned.length then [cardLengthErrorMsg cardType] else []
        | none => []
      else []
    let errors₃ := if !validateLuhn ⟨cleaned⟩ then
        ["Card number is invalid (failed Luhn algorithm check)"] else []
    let errors := errors₁ ++ errors₂ ++ errors₃
    ⟨errors.isEmpty, cardType, errors⟩

/-! ## generateAccountNumber (SEC-302 revision)

`crypto.randomBytes(4).readUInt32BE(0)` is a random 32-bit value `r`; the
function returns `(r % 1000000000).toString().padStart(10, "0")`. -/

/-- The decimal digit character for `d < 10`. -/
def digitChar (d : Nat) : Char :=
  if d = 0 then '0' else if d = 1 then '1' else if d = 2 then '2'
  else if d = 3 then '3' else if d = 4 then '4' else if d = 5 then '5'
  else if d = 6 then '6' else if d = 7 then '7' else if d = 8 then '8' else '9'

/-- Big-endian decimal digits of `n`, fuel-indexed so that it reduces
structurally (`fuel ≥ n` suffices). -/
def digitsAux : Nat → Nat → List Char
  | 0, _ => []
  | fuel + 1, n => if n = 0 then [] else digitsAux fuel (n / 10) ++ [digitChar (n % 10)]

/-- `n.toString()` for natural `n`, as a character list. -/
def natDecimalRepr (n : Nat) : List Char := if n = 0 then ['0'] else digitsAux n n

/-- `padStart(len, "0")`. -/
def padStartZeros (len : Nat) (l : List Char) : List Char :=
  List.replicate (len - l.length) '0' ++ l

/-- `generateAccountNumber` (`server/routers/account.ts`): reduce the random
draw modulo `10^9` and zero-pad its decimal representation to 10 characters. -/
def generateAccountNumber (r : Nat) : String :=
  let accountNum := r % 1000000000
  ⟨padStartZeros 10 (natDecimalRepr accountNum)⟩

/-- Numeric value of a digit string (base-10 fold). -/
def decodeDigits (l : List Char) : Nat := l.foldl (fun acc c => acc * 10 + digitVal c) 0

/-! ## Data model -/

/-- One row of the `accounts` table. -/
structure Account where
  id : Nat
  userId : Nat
  accountNumber : String
  accountType : String
  balance : Money
  status : String
deriving DecidableEq, Repr

/-- One row of the `transactions` table. -/
structure Txn where
  id : Nat
  accountId : Nat
  type : String
  amount : Money
  description : String
  status : String
  processedAt : Nat
  createdAt : Nat
deriving DecidableEq, Repr

/-- The SQLite store: both tables in rowid order plus autoincrement counters. -/
structure DB where
  accounts : List Account
  transactions : List Txn
  nextAccountId : Nat
  nextTxnId : Nat
deriving DecidableEq, Repr

/-! ## createAccount -/

inductive AccountType where
  | checking
  | savings
deriving DecidableEq, Repr

def AccountType.str : AccountType → String
  | .checking => "checking"
  | .savings => "savings"

/-- The `while (!isUnique)` loop of `createAccount`, fuel-indexed: draw
`draws i`, keep it unless an account with that number exists, else redraw.
`none` means the loop is still spinning after `fuel` iterations — the source
has no retry cap and no failure exit, so `none` never corresponds to a
returned value. -/
def accountNumberLoop (existsNum : String → Bool) (draws : Nat → Nat) :
    Nat → Nat → Option String
  | _, 0 => none
  | i, fuel + 1 =>
    let num := generateAccountNumber (draws i)
    if existsNum num then accountNumberLoop existsNum draws (i + 1) fuel else some num

/-- The post-insert read-back step of `createAccount` (VAL/ACC fix revision):
`if (!account) throw INTERNAL_SERVER_ERROR; return account;`. -/
def createAccountReadBack (readBack : Option Account) : Except TrpcErr Account :=
  match readBack with
  | none =>
    .error ⟨"INTERNAL_SERVER_ERROR", "Account was created but could not be retrieved. Please try again."⟩
  | some account => .ok account

/-- `createAccount`: reject a duplicate (owner, type) pair with `CONFLICT`,
generate a unique account number, insert a zero-balance active row, read the
row back.  `draws` supplies the random draws, `fuel` bounds how many loop
iterations the model unrolls (the loop itself is uncapped; a `fuel`
exhaustion means the loop is still running, with no writes performed, which
we report as a model-level error distinct from any `TRPCError` of the
source). -/
def createAccount (db : DB) (uid : Nat) (accountType : AccountType)
    (draws : Nat → Nat) (fuel : Nat) : Except TrpcErr Account × DB :=
  match db.accounts.find? (fun a => a.userId == uid && a.accountType == accountType.str) with
  | some _ => (.error ⟨"CONFLICT", "You already have a " ++ accountType.str ++ " account"⟩, db)
  | none =>
    match accountNumberLoop
        (fun s => (db.accounts.find? (fun a => a.accountNumber == s)).isSome) draws 0 fuel with
    | none => (.error ⟨"MODEL_LOOP_RUNNING", "the unique-number loop has not terminated"⟩, db)
    | some accountNumber =>
      let acc : Account :=
        { id := db.nextAccountId, userId := uid, accountNumber := accountNumber,
          accountType := accountType.str, balance := 0, status := "active" }
      let db' : DB := { db with accounts := db.accounts ++ [acc],
                                nextAccountId := db.nextAccountId + 1 }
      (createAccountReadBack (db'.accounts.find? (fun a => a.accountNumber == accountNumber)), db')

/-! ## fundAccount -/

inductive FundingType where
  | card
  | bank
deriving DecidableEq, Repr

def FundingType.str : FundingType → String
  | .card => "card"
  | .bank => "bank"

/-- The `fundingSource` object (its `type` already constrained by
`z.enum(["card", "bank"])`). -/
structure FundingSource where
  type : FundingType
  accountNumber : String
  routingNumber : Option String
deriving DecidableEq, Repr

/-- The `fundAccount` input object. -/
structure FundInput where
  accountId : Nat
  amount : JSNum
  fundingSource : FundingSource
deriving DecidableEq, Repr

/-- `.trim()` on a character list (JavaScript trims leading and trailing
whitespace). -/
def jsTrim (l : List Char) : List Char :=
  ((l.dropWhile Char.isWhitespace).reverse.dropWhile Char.isWhitespace).reverse

/-- Truthiness plus non-blank check of the first fundingSource refinement:
`!!data.routingNumber && data.routingNumber.trim().length > 0`. -/
def routingPresent (fs : FundingSource) : Bool :=
  match fs.routingNumber with
  | none => false
  | some r => !(jsTrim r.toList).isEmpty

/-- `/^\d{9}$/.test r`. -/
def nineDigits (r : String) : Bool := r.toList.length == 9 && r.toList.all (·.isDigit)

/-- The zod chain on `amount`:
`z.number().positive(...).min(0.01, ...).max(10000, ...).refine(val > 0)`.
`z.number()` rejects `NaN` at the type level; `Infinity` passes `positive`
and `min` but fails `max`; `-Infinity` fails `positive`.  Returns the parsed
finite amount in cents. -/
def zodAmount : JSNum → Except TrpcErr Money
  | .nan => .error ⟨"BAD_REQUEST", "Expected number, received nan"⟩
  | .posInf => .error ⟨"BAD_REQUEST", "Amount cannot exceed $10,000"⟩
  | .negInf => .error ⟨"BAD_REQUEST", "Amount must be greater than $0.00"⟩
  | .num c =>
    if c ≤ 0 then .error ⟨"BAD_REQUEST", "Amount must be greater than $0.00"⟩
    else if c < 1 then .error ⟨"BAD_REQUEST", "Amount must be at least $0.01"⟩
    else if 1000000 < c then .error ⟨"BAD_REQUEST", "Amount cannot exceed $10,000"⟩
    else .ok c

/-- The two zod refinements on `fundingSource` (VAL-207): a bank transfer
needs a present, non-blank routing number, and a present non-empty routing
number on a bank transfer must be exactly 9 digits. -/
def zodFundingSource (fs : FundingSource) : Except TrpcErr Unit :=
  if fs.type == .bank && !routingPresent fs then
    .error ⟨"BAD_REQUEST", "Routing number is required for bank transfers"⟩
  else if fs.type == .bank &&
      (match fs.routingNumber with
       | some r => !(r == "") && !nineDigits r
       | none => false) then
    .error ⟨"BAD_REQUEST", "Routing number must be exactly 9 digits"⟩
  else .ok ()

/-- The whole zod input schema of `fundAccount`; on success yields the parsed
amount in cents. -/
def zodParseFund (input : FundInput) : Except TrpcErr Money := do
  let amount ← zodAmount input.amount
  zodFundingSource input.fundingSource
  pure amount

/-- `updatedAccount?.balance ?? account.balance + amount` — the value the
transaction block returns as `newBalance`: the balance read back from the
store after the write when that read yields a row, and otherwise (the `??`
fallback) the pre-call balance plus the amount computed in application
memory. -/
def fundNewBalance (updatedAccount : Option Money) (preBalance amount : Money) : Money :=
  match updatedAccount with
  | some b => b
  | none => preBalance + amount

/-- The result object of `fundAccount`.  `transaction` mirrors
`SELECT * FROM transactions WHERE id = ?`, which in JavaScript may be
`undefined`. -/
structure FundResult where
  transaction : Option Txn
  newBalance : Money
deriving DecidableEq, Repr

/-- The body of `rawDb.transaction(() => {...})`: insert the transaction row,
apply `UPDATE accounts SET balance = balance + ? WHERE id = ?`, re-read the
inserted row and the updated balance, and build the result via
`fundNewBalance`.  All of it is one atomic unit of the storage engine. -/
def fundTxnBlock (db : DB) (accountId : Nat) (amount : Money) (srcType : FundingType)
    (preBalance : Money) (now : Nat) : FundResult × DB :=
  let txn : Txn :=
    { id := db.nextTxnId, accountId := accountId, type := "deposit", amount := amount,
      description := "Funding from " ++ srcType.str, status := "completed",
      processedAt := now, createdAt := now }
  let db₁ : DB := { db with transactions := db.transactions ++ [txn],
                            nextTxnId := db.nextTxnId + 1 }
  let db₂ : DB := { db₁ with accounts := db₁.accounts.map (fun a =>
      if a.id == accountId then { a with balance := a.balance + amount } else a) }
  let readTxn := db₂.transactions.find? (fun t => t.id == txn.id)
  let updatedAccount := (db₂.accounts.find? (fun a => a.id == accountId)).map (·.balance)
  ({ transaction := readTxn, newBalance := fundNewBalance updatedAccount preBalance amount }, db₂)

/-- The `fundAccount` mutation body, after zod parsing: the VAL-205 amount
re-checks, ownership lookup, status check, VAL-206/207 funding-source checks,
then the atomic transaction block (`commitOk = false` is the engine failing
to commit: every write is rolled back). -/
def fundMutation (db : DB) (uid : Nat) (accountId : Nat) (amount : Money)
    (fs : FundingSource) (now : Nat) (commitOk : Bool) : Except TrpcErr FundResult × DB :=
  if amount ≤ 0 then (.error ⟨"BAD_REQUEST", "Amount must be greater than $0.00"⟩, db)
  else if amount < 1 then (.error ⟨"BAD_REQUEST", "Amount must be at least $0.01"⟩, db)
  else
    match db.accounts.find? (fun a => a.id == accountId && a.userId == uid) with
    | none => (.error errNotFound, db)
    | some account =>
      if account.status != "active" then (.error errNotActive, db)
      else if fs.type == .card && !(validateCardNumber fs.accountNumber).valid then
        (.error ⟨"BAD_REQUEST",
          String.intercalate ". " (validateCardNumber fs.accountNumber).errors⟩, db)
      else if fs.type == .bank && !routingPresent fs then
        (.error ⟨"BAD_REQUEST", "Routing number is required for bank transfers"⟩, db)
      else if fs.type == .bank &&
          !(match fs.routingNumber with | some r => nineDigits r | none => false) then
        (.error ⟨"BAD_REQUEST", "Routing number must be exactly 9 digits"⟩, db)
      else if !commitOk then (.error errInternalCommit, db)
      else
        let (res, db') := fundTxnBlock db accountId amount fs.type account.balance now
        (.ok res, db')

/-- `fundAccount`: zod input validation, then the mutation body
(`parseFloat(input.amount.toString())` is the identity on numbers). -/
def fundAccount (db : DB) (uid : Nat) (input : FundInput) (now : Nat)
    (commitOk : Bool) : Except TrpcErr FundResult × DB :=
  match zodParseFund input with
  | .error e => (.error e, db)
  | .ok amount => fundMutation db uid input.accountId amount input.fundingSource now commitOk

/-! ## getTransactions (PERF-405 revision) -/

/-- A transaction row enriched with its account's type. -/
structure EnrichedTxn where
  txn : Txn
  accountType : String
deriving DecidableEq, Repr

/-- Insert into a list already sorted by `createdAt` descending, after every
row with a strictly larger key and before the first row whose key is not
larger — so equal keys keep their original (rowid) relative order.  This is
SQLite's deterministic evaluation of `ORDER BY created_at DESC` over a table
scanned in rowid order. -/
def insertTxnDesc (t : Txn) : List Txn → List Txn
  | [] => [t]
  | u :: us => if t.createdAt < u.createdAt then u :: insertTxnDesc t us else t :: u :: us

/-- Stable sort by `createdAt` descending (`orderBy(desc(transactions.createdAt))`). -/
def sortTxnsDesc : List Txn → List Txn
  | [] => []
  | t :: ts => insertTxnDesc t (sortTxnsDesc ts)

/-- `getTransactions`: ownership lookup (same `NOT_FOUND` as `fundAccount`),
then all of the account's transactions ordered by `created_at` descending,
each enriched with the account type from the row already fetched for the
ownership check. -/
def getTransactions (db : DB) (uid : Nat) (accountId : Nat) :
    Except TrpcErr (List EnrichedTxn) :=
  match db.accounts.find? (fun a => a.id == accountId && a.userId == uid) with
  | none => .error errNotFound
  | some account =>
    let accountTransactions := sortTxnsDesc (db.transactions.filter (fun t => t.accountId == accountId))
    .ok (accountTransactions.map (fun t => { txn := t, accountType := account.accountType }))

/-! ## Concurrency model for the funding operation

`better-sqlite3` serialises transactions: an interleaved execution of several
`fundAccount` calls is a sequence of atomic events.  Each call contributes a
read-only validation event (its ownership/status `SELECT`) and one atomic
transaction-block event (insert + relative `UPDATE` + read-backs), in that
order; events of different calls interleave arbitrarily. -/

inductive FundPhase where
  | check
  | txnBlock
deriving DecidableEq, Repr

/-- One serialised event of an interleaved execution: which call, which phase. -/
structure SchedEvent where
  call : Nat
  phase : FundPhase
deriving DecidableEq, Repr

/-- Effect of one event on the store: the validation phase only reads; the
transaction block runs atomically (its `preBalance` argument feeds only the
returned `newBalance`, never the store, so the store effect is independent of
it). -/
def fundStep (accountId : Nat) (v : Money) (now : Nat) (db : DB) (e : SchedEvent) : DB :=
  match e.phase with
  | .check => db
  | .txnBlock => (fundTxnBlock db accountId v .bank 0 now).2

/-- Run an interleaved schedule of funding events. -/
def runSched (accountId : Nat) (v : Money) (now : Nat) (db : DB)
    (σ : List SchedEvent) : DB :=
  σ.foldl (fundStep accountId v now) db

/-- `σ` is an interleaving of `K` concurrent `fundAccount` calls: every call
`k < K` contributes exactly one `check` and one `txnBlock` event, with its
`check` before its `txnBlock`. -/
def ValidSched (K : Nat) (σ : List SchedEvent) : Prop :=
  ((σ.filter (fun e => e.phase == .txnBlock)).map (·.call)).Perm (List.range K) ∧
  ((σ.filter (fun e => e.phase == .check)).map (·.call)).Perm (List.range K) ∧
  ∀ k < K, σ.indexOf ⟨k, .check⟩ < σ.indexOf ⟨k, .txnBlock⟩

/-- The transaction row inserted by the atomic block of `fundAccount`. -/
def depositRow (db : DB) (accountId : Nat) (q : Money) (srcType : FundingType) (now : Nat) : Txn :=
  { id := db.nextTxnId, accountId := accountId, type := "deposit", amount := q,
    description := "Funding from " ++ srcType.str, status := "completed",
    processedAt := now, createdAt := now }

/-- The store after the atomic block commits: exactly one appended transaction
row, and the balance of the rows matching the account id bumped by exactly
`q`; nothing else changes. -/
def fundApply (db : DB) (accountId : Nat) (q : Money) (srcType : FundingType) (now : Nat) : DB :=
  { accounts := db.accounts.map (fun a =>
      if a.id == accountId then { a with balance := a.balance + q } else a),
    transactions := db.transactions ++ [depositRow db accountId q srcType now],
    nextAccountId := db.nextAccountId,
    nextTxnId := db.nextTxnId + 1 }


/-- The list of zod validation messages that can reject the `amount` field
(type check, `positive`, `min`, `max`). -/
def amountValidationMsgs : List String :=
  ["Expected number, received nan", "Amount must be greater than $0.00",
   "Amount must be at least $0.01", "Amount cannot exceed $10,000"]

/-- The funding source passes every funding-source check of `fundAccount`
(zod refinements and the VAL-206/207 body checks): a card with a valid card
number, or a bank transfer with a present, non-blank, 9-digit routing
number. -/
def fundingSourceAccepted (fs : FundingSource) : Bool :=
  match fs.type with
  | .card => (validateCardNumber fs.accountNumber).valid
  | .bank =>
    match fs.routingNumber with
    | some r => !(jsTrim r.toList).isEmpty && nineDigits r
    | none => false

/-- The store after a sequence of `fundAccount` calls with the given amounts
(each call keeps only the resulting store, as successive requests do). -/
def fundSeq (db : DB) (uid accId : Nat) (amts : List Money) (fs : FundingSource)
    (now : Nat) : DB :=
  amts.foldl (fun d a => (fundAccount d uid ⟨accId, .num a, fs⟩ now true).2) db

/-- Every call of the sequence succeeds: peeling the amounts off one by one,
each `fundAccount` call returns `.ok` on the store left by the previous
one. -/
def FundSeqOk (uid accId : Nat) (fs : FundingSource) (now : Nat) :
    DB → List Money → Prop
  | _, [] => True
  | db, a :: as =>
    ∃ res db', fundAccount db uid ⟨accId, .num a, fs⟩ now true = (.ok res, db') ∧
      FundSeqOk uid accId fs now db' as

/-- The total order in which `getTransactions` presents rows: `created_at`
descending, ties broken by ascending rowid. -/
def txnOrd (a b : Txn) : Prop :=
  b.createdAt < a.createdAt ∨ (a.createdAt = b.createdAt ∧ a.id < b.id)

/-- Number of atomic transaction-block events in a schedule. -/
def countTxnEvents (σ : List SchedEvent) : Nat :=
  (σ.filter (fun e => e.phase == FundPhase.txnBlock)).length

/-! ## Helper lemmas -/

lemma find?_append_of_none {α : Type} (p : α → Bool) (l₁ l₂ : List α)
    (h : ∀ a ∈ l₁, p a = false) : (l₁ ++ l₂).find? p = l₂.find? p := by
  induction l₁ with
  | nil => rfl
  | cons x xs ih =>
    have hx : p x = false := h x (by simp)
    simp only [List.cons_append, List.find?, hx]
    exact ih (fun a ha => h a (by simp [ha]))

lemma isDigit_digitChar (d : Nat) : (digitChar d).isDigit = true := by
  unfold digitChar
  repeat' split
  all_goals decide

lemma digitVal_digitChar (d : Nat) (h : d < 10) : digitVal (digitChar d) = d := by
  interval_cases d <;> decide

lemma decodeDigits_append_digit (l : List Char) (c : Char) :
    decodeDigits (l ++ [c]) = decodeDigits l * 10 + digitVal c := by
  simp [decodeDigits, List.foldl_append]

lemma decodeDigits_digitsAux (fuel : Nat) :
    ∀ n, n ≤ fuel → decodeDigits (digitsAux fuel n) = n := by
  induction fuel with
  | zero =>
    intro n hn
    have : n = 0 := Nat.le_zero.mp hn
    subst this
    rfl
  | succ f ih =>
    intro n hn
    by_cases h0 : n = 0
    · subst h0; simp [digitsAux]; rfl
    · have hdiv : n / 10 ≤ f := by
        have h1 : n / 10 < n := Nat.div_lt_self (Nat.pos_of_ne_zero h0) (by norm_num)
        omega
      simp only [digitsAux, h0, if_false]
      rw [decodeDigits_append_digit, ih _ hdiv,
          digitVal_digitChar _ (Nat.mod_lt _ (by norm_num))]
      omega

lemma length_digitsAux (fuel : Nat) :
    ∀ n k, n < 10 ^ k → (digitsAux fuel n).length ≤ k := by
  induction fuel with
  | zero => intro n k _; simp [digitsAux]
  | succ f ih =>
    intro n k hk
    by_cases h0 : n = 0
    · subst h0; simp [digitsAux]
    · cases k with
      | zero => simp at hk; omega
      | succ k' =>
        have hdiv : n / 10 < 10 ^ k' := by
          apply Nat.div_lt_of_lt_mul
          rw [Nat.mul_comm]
          simpa [pow_succ] using hk
        simp only [digitsAux, h0, if_false, List.length_append, List.length_singleton]
        have := ih (n / 10) k' hdiv
        omega

lemma mem_digitsAux_isDigit (fuel : Nat) :
    ∀ n c, c ∈ digitsAux fuel n → c.isDigit = true := by
  induction fuel with
  | zero => intro n c hc; simp [digitsAux] at hc
  | succ f ih =>
    intro n c hc
    by_cases h0 : n = 0
    · subst h0; simp [digitsAux] at hc
    · simp only [digitsAux, h0, if_false, List.mem_append, List.mem_singleton] at hc
      rcases hc with hc | hc
      · exact ih _ _ hc
      · subst hc; exact isDigit_digitChar _

lemma decodeDigits_replicate_zeros (m : Nat) (l : List Char) :
    decodeDigits (List.replicate m '0' ++ l) = decodeDigits l := by
  induction m with
  | zero => rfl
  | succ k ih => simpa [List.replicate_succ, decodeDigits] using ih

lemma length_natDecimalRepr_le (n k : Nat) (hk : 1 ≤ k) (h : n < 10 ^ k) :
    (natDecimalRepr n).length ≤ k := by
  unfold natDecimalRepr
  split
  · simpa using hk
  · exact length_digitsAux n n k h

lemma decodeDigits_natDecimalRepr (n : Nat) : decodeDigits (natDecimalRepr n) = n := by
  unfold natDecimalRepr
  split
  · subst ‹n = 0›; decide
  · exact decodeDigits_digitsAux n n le_rfl

lemma mem_natDecimalRepr_isDigit (n : Nat) (c : Char) (hc : c ∈ natDecimalRepr n) :
    c.isDigit = true := by
  unfold natDecimalRepr at hc
  split at hc
  · simp at hc; subst hc; decide
  · exact mem_digitsAux_isDigit n n c hc

/-! ## C10: generateAccountNumber stays below 10^9 -/

/-- C10: every string produced by `generateAccountNumber` is exactly 10
decimal digits; its numeric value is the draw reduced modulo `10^9`, hence
strictly below `10^9`; consequently the first character is always `'0'` and
the generator never reaches the upper nine-tenths of the 10-digit identifier
space. -/
theorem C10_generateAccountNumber_low_space (r : Nat) :
    (generateAccountNumber r).length = 10 ∧
    (∀ c ∈ (generateAccountNumber r).toList, c.isDigit = true) ∧
    decodeDigits (generateAccountNumber r).toList = r % 1000000000 ∧
    r % 1000000000 < 1000000000 ∧
    (generateAccountNumber r).toList.head? = some '0' := by
  have hmod : r % 1000000000 < 1000000000 := Nat.mod_lt _ (by norm_num)
  have hlen : (natDecimalRepr (r % 1000000000)).length ≤ 9 := by
    apply length_natDecimalRepr_le _ 9 (by norm_num)
    exact lt_of_lt_of_le hmod (by norm_num)
  refine ⟨?_, ?_, ?_, hmod, ?_⟩
  · show (padStartZeros 10 (natDecimalRepr (r % 1000000000))).length = 10
    simp only [padStartZeros, List.length_append, List.length_replicate]
    omega
  · intro c hc
    have hc' : c ∈ padStartZeros 10 (natDecimalRepr (r % 1000000000)) := hc
    simp only [padStartZeros, List.mem_append, List.mem_replicate] at hc'
    rcases hc' with ⟨_, rfl⟩ | hc'
    · decide
    · exact mem_natDecimalRepr_isDigit _ _ hc'
  · show decodeDigits (padStartZeros 10 (natDecimalRepr (r % 1000000000))) = _
    simp only [padStartZeros]
    rw [decodeDigits_replicate_zeros]
    exact decodeDigits_natDecimalRepr _
  · show (padStartZeros 10 (natDecimalRepr (r % 1000000000))).head? = some '0'
    simp only [padStartZeros]
    rcases hpad : 10 - (natDecimalRepr (r % 1000000000)).length with _ | m
    · omega
    · simp [List.replicate_succ]

/-! ## C9: the account-number loop has no retry cap

The source loop is `while (!isUnique) { accountNumber = generate(); ... }`:
there is no attempt counter and no fatal-error exit.  Against a store in
which every candidate number already exists (`existsNum` answers `true` for
every draw), the loop never terminates, for any number of iterations. -/

/-- C9: if every draw collides with an existing account number, the
account-number generation loop of `createAccount` is still running after any
number of iterations — the source has no bounded retry cap followed by a
fatal error. -/
theorem C9_accountNumberLoop_no_retry_cap (existsNum : String → Bool) (draws : Nat → Nat)
    (h : ∀ i, existsNum (generateAccountNumber (draws i)) = true) :
    ∀ i fuel, accountNumberLoop existsNum draws i fuel = none := by
  intro i fuel
  induction fuel generalizing i with
  | zero => rfl
  | succ f ih => simp [accountNumberLoop, h i, ih (i + 1)]

/-- C9 witness: the all-collisions store drives the loop for 50 iterations
without producing a result. -/
theorem C9_accountNumberLoop_no_retry_cap_witness :
    (∀ i : Nat, (fun _ => true) (generateAccountNumber ((fun _ => 0) i)) = true) ∧
    accountNumberLoop (fun _ => true) (fun _ => 0) 0 50 = none := by
  refine ⟨fun _ => rfl, ?_⟩
  exact C9_accountNumberLoop_no_retry_cap (fun _ => true) (fun _ => 0) (fun _ => rfl) 0 50

/-! ## C4: the post-write read-back fallback -/

/-- C4: the transaction block's `newBalance` is
`updatedAccount?.balance ?? account.balance + amount`.  When the post-write
read returns a row, the returned balance is the stored one; but when the
read returns no row, the block does NOT fail — it fabricates the balance in
application memory as the pre-call balance plus the amount, contradicting
the required hard failure. -/
theorem C4_newBalance_fallback_fabricated :
    (∀ b pre amt : Money, fundNewBalance (some b) pre amt = b) ∧
    (∀ pre amt : Money, fundNewBalance none pre amt = pre + amt) ∧
    fundNewBalance none 0 500 = 500 := by
  refine ⟨fun _ _ _ => rfl, fun _ _ => rfl, rfl⟩

/-! ## C3: createAccount never fabricates an account record -/

lemma accountNumberLoop_some_fresh (existsNum : String → Bool) (draws : Nat → Nat) :
    ∀ i fuel num, accountNumberLoop existsNum draws i fuel = some num →
      existsNum num = false := by
  intro i fuel
  induction fuel generalizing i with
  | zero => intro num h; simp [accountNumberLoop] at h
  | succ f ih =>
    intro num h
    simp only [accountNumberLoop] at h
    split at h
    · exact ih (i + 1) num h
    · cases h
      rename_i hcond
      simp only [Bool.not_eq_true] at hcond
      exact hcond

/-- C3: if the post-insert read-back of `createAccount` returns no row, the
call fails with `INTERNAL_SERVER_ERROR`; a successful read-back returns
exactly the row read from the store; and every successful `createAccount`
result has balance `0` and status `"active"` — never a fabricated
placeholder. -/
theorem C3_createAccount_no_fabricated_record :
    (createAccountReadBack none =
      .error ⟨"INTERNAL_SERVER_ERROR",
        "Account was created but could not be retrieved. Please try again."⟩) ∧
    (∀ r a, createAccountReadBack r = .ok a → r = some a) ∧
    (∀ db uid aty draws fuel res db',
      createAccount db uid aty draws fuel = (.ok res, db') →
      res.balance = 0 ∧ res.status = "active") := by
  refine ⟨rfl, ?_, ?_⟩
  · intro r a h
    cases r with
    | none => simp [createAccountReadBack] at h
    | some x =>
      simp only [createAccountReadBack, Except.ok.injEq] at h
      rw [h]
  · intro db uid aty draws fuel res db' h
    unfold createAccount at h
    rcases hdup : db.accounts.find? (fun a => a.userId == uid && a.accountType == aty.str) with
      _ | a
    · rw [hdup] at h
      rcases hloop : accountNumberLoop
          (fun s => (db.accounts.find? (fun a => a.accountNumber == s)).isSome)
          draws 0 fuel with _ | num
      · rw [hloop] at h; simp at h
      · rw [hloop] at h
        have hfreshSome := accountNumberLoop_some_fresh _ draws 0 fuel num hloop
        have hfresh : ∀ a ∈ db.accounts, (a.accountNumber == num) = false := by
          intro a ha
          by_contra hcontra
          have heq : (a.accountNumber == num) = true := by
            cases hb : a.accountNumber == num
            · exact absurd hb hcontra
            · rfl
          have : (db.accounts.find? (fun a => a.accountNumber == num)).isSome = true := by
            have h' : db.accounts.find? (fun a => a.accountNumber == num) ≠ none := by
              intro hnone
              have := List.find?_eq_none.mp hnone a ha
              rw [heq] at this
              exact this rfl
            cases hfind : db.accounts.find? (fun a => a.accountNumber == num) with
            | none => exact absurd hfind h'
            | some _ => rfl
          rw [this] at hfreshSome
          cases hfreshSome
        have hread :
            ((db.accounts ++
              [{ id := db.nextAccountId, userId := uid, accountNumber := num,
                 accountType := aty.str, balance := 0, status := "active" : Account}]).find?
              (fun a => a.accountNumber == num)) =
            some { id := db.nextAccountId, userId := uid, accountNumber := num,
                   accountType := aty.str, balance := 0, status := "active" } := by
          rw [find?_append_of_none _ _ _ hfresh]
          simp [List.find?]
        simp only [hread, createAccountReadBack, Prod.mk.injEq, Except.ok.injEq] at h
        rcases h with ⟨hres, _⟩
        rw [← hres]
        exact ⟨rfl, rfl⟩
    · rw [hdup] at h; simp at h

/-- C3 witness: a concrete successful `createAccount` returns the zero-balance
active row it inserted. -/
theorem C3_createAccount_no_fabricated_record_witness :
    ∃ res db',
      createAccount ⟨[], [], 1, 1⟩ 42 .checking (fun _ => 5) 1 = (.ok res, db') ∧
      res.balance = 0 ∧ res.status = "active" := by
  refine ⟨⟨1, 42, "0000000005", "checking", 0, "active"⟩,
          ⟨[⟨1, 42, "0000000005", "checking", 0, "active"⟩], [], 2, 1⟩, ?_, ?_⟩
  · decide
  · exact C3_createAccount_no_fabricated_record.2.2 ⟨[], [], 1, 1⟩ 42 .checking (fun _ => 5) 1
      ⟨1, 42, "0000000005", "checking", 0, "active"⟩
      ⟨[⟨1, 42, "0000000005", "checking", 0, "active"⟩], [], 2, 1⟩ (by decide)

/-! ## The atomic funding unit, characterised -/

lemma fundTxnBlock_snd (db : DB) (accId : Nat) (q : Money) (ty : FundingType)
    (pre : Money) (now : Nat) :
    (fundTxnBlock db accId q ty pre now).2 = fundApply db accId q ty now := rfl

lemma zodAmount_ok_inv (j : JSNum) (q : Money) (h : zodAmount j = .ok q) :
    j = .num q ∧ 1 ≤ q ∧ q ≤ 1000000 := by
  cases j with
  | nan => simp [zodAmount] at h
  | posInf => simp [zodAmount] at h
  | negInf => simp [zodAmount] at h
  | num c =>
    simp only [zodAmount] at h
    split_ifs at h with h0 h1 h2
    injection h with hcq
    subst hcq
    exact ⟨rfl, not_lt.mp h1, not_lt.mp h2⟩

lemma zodParseFund_ok_inv (input : FundInput) (q : Money)
    (h : zodParseFund input = .ok q) :
    zodAmount input.amount = .ok q ∧ zodFundingSource input.fundingSource = .ok () := by
  unfold zodParseFund at h
  rcases ha : zodAmount input.amount with e | a
  · rw [ha] at h; cases h
  · rw [ha] at h
    rcases hf : zodFundingSource input.fundingSource with e | u
    · rw [hf] at h; cases h
    · rw [hf] at h
      cases u
      simp only [bind, Except.bind, pure, Except.pure, Except.ok.injEq] at h
      subst h
      exact ⟨rfl, rfl⟩

lemma zodParseFund_err_amount (input : FundInput) (e : TrpcErr)
    (h : zodAmount input.amount = .error e) : zodParseFund input = .error e := by
  unfold zodParseFund
  rw [h]
  rfl

lemma fundAccount_of_zod_err (db : DB) (uid : Nat) (input : FundInput) (now : Nat)
    (commitOk : Bool) (e : TrpcErr) (h : zodParseFund input = .error e) :
    fundAccount db uid input now commitOk = (.error e, db) := by
  unfold fundAccount
  rw [h]

lemma fundAccount_of_zod_ok (db : DB) (uid : Nat) (input : FundInput) (now : Nat)
    (commitOk : Bool) (q : Money) (h : zodParseFund input = .ok q) :
    fundAccount db uid input now commitOk =
      fundMutation db uid input.accountId q input.fundingSource now commitOk := by
  unfold fundAccount
  rw [h]

lemma fundMutation_split (db : DB) (uid accId : Nat) (q : Money) (fs : FundingSource)
    (now : Nat) (commitOk : Bool) :
    (∃ res, fundMutation db uid accId q fs now commitOk =
       (.ok res, fundApply db accId q fs.type now)) ∨
    (∃ e, fundMutation db uid accId q fs now commitOk = (.error e, db)) := by
  unfold fundMutation
  by_cases h0 : q ≤ 0
  · right; exact ⟨_, by rw [if_pos h0]⟩
  rw [if_neg h0]
  by_cases h1 : q < 1
  · right; exact ⟨_, by rw [if_pos h1]⟩
  rw [if_neg h1]
  rcases hfind : db.accounts.find? (fun a => a.id == accId && a.userId == uid) with _ | account
  · right; exact ⟨errNotFound, by rw [hfind]⟩
  simp only [hfind]
  by_cases hst : (account.status != "active") = true
  · right; exact ⟨_, by rw [if_pos hst]⟩
  rw [if_neg hst]
  by_cases hcard : (fs.type == FundingType.card && !(validateCardNumber fs.accountNumber).valid) = true
  · right; exact ⟨_, by rw [if_pos hcard]⟩
  rw [if_neg hcard]
  by_cases hb1 : (fs.type == FundingType.bank && !routingPresent fs) = true
  · right; exact ⟨_, by rw [if_pos hb1]⟩
  rw [if_neg hb1]
  by_cases hb2 : (fs.type == FundingType.bank &&
      !(match fs.routingNumber with | some r => nineDigits r | none => false)) = true
  · right; exact ⟨_, by rw [if_pos hb2]⟩
  rw [if_neg hb2]
  by_cases hc : commitOk
  · left
    refine ⟨(fundTxnBlock db accId q fs.type account.balance now).1, ?_⟩
    simp only [hc, Bool.not_true, if_neg (by simp : ¬ (false = true))]
    rfl
  · right
    refine ⟨errInternalCommit, ?_⟩
    have : commitOk = false := by cases commitOk <;> simp_all
    simp [this]

lemma zodAmount_num_ok (q : Money) (h1 : 1 ≤ q) (h2 : q ≤ 1000000) :
    zodAmount (.num q) = .ok q := by
  simp only [zodAmount]
  rw [if_neg (by intro hle; exact absurd (h1.trans hle) (by norm_num)),
      if_neg (not_lt.mpr h1), if_neg (not_lt.mpr h2)]

lemma zodFundingSource_accepted (fs : FundingSource)
    (h : fundingSourceAccepted fs = true) : zodFundingSource fs = .ok () := by
  unfold zodFundingSource
  rcases hty : fs.type with _ | _
  · rw [if_neg (by simp [hty]), if_neg (by simp [hty])]
  · unfold fundingSourceAccepted at h
    rw [hty] at h
    rcases hr : fs.routingNumber with _ | r
    · rw [hr] at h; cases h
    · rw [hr] at h
      simp only [Bool.and_eq_true] at h
      have hrp : routingPresent fs = true := by
        simp only [routingPresent, hr]
        exact h.1
      rw [if_neg (by simp [hrp]), if_neg (by simp [hr, h.2])]

lemma zodParseFund_num_ok (accId : Nat) (q : Money) (fs : FundingSource)
    (h1 : 1 ≤ q) (h2 : q ≤ 1000000) (hfs : fundingSourceAccepted fs = true) :
    zodParseFund ⟨accId, .num q, fs⟩ = .ok q := by
  unfold zodParseFund
  rw [show (⟨accId, .num q, fs⟩ : FundInput).amount = .num q from rfl,
      zodAmount_num_ok q h1 h2,
      show (⟨accId, .num q, fs⟩ : FundInput).fundingSource = fs from rfl,
      zodFundingSource_accepted fs hfs]
  rfl

lemma fundMutation_ok_of (db : DB) (uid accId : Nat) (acc : Account) (q : Money)
    (fs : FundingSource) (now : Nat)
    (hfind : db.accounts.find? (fun a => a.id == accId && a.userId == uid) = some acc)
    (hact : acc.status = "active") (h1 : 1 ≤ q) (_h2 : q ≤ 1000000)
    (hfs : fundingSourceAccepted fs = true) :
    fundMutation db uid accId q fs now true =
      (.ok (fundTxnBlock db accId q fs.type acc.balance now).1,
       fundApply db accId q fs.type now) := by
  unfold fundMutation
  rw [if_neg (by intro hle; exact absurd (h1.trans hle) (by norm_num)),
      if_neg (not_lt.mpr h1)]
  simp only [hfind]
  rw [if_neg (by simp [hact])]
  rcases hty : fs.type with _ | _
  · have hv : (validateCardNumber fs.accountNumber).valid = true := by
      unfold fundingSourceAccepted at hfs
      rw [hty] at hfs
      exact hfs
    rw [if_neg (by simp [hty, hv]), if_neg (by simp [hty]), if_neg (by simp [hty]),
        if_neg (by simp)]
    rfl
  · unfold fundingSourceAccepted at hfs
    rw [hty] at hfs
    rcases hr : fs.routingNumber with _ | r
    · rw [hr] at hfs; cases hfs
    · rw [hr] at hfs
      simp only [Bool.and_eq_true] at hfs
      have hrp : routingPresent fs = true := by
        simp only [routingPresent, hr]
        exact hfs.1
      rw [if_neg (by simp [hty]), if_neg (by simp [hty, hrp]),
          if_neg (by simp [hty, hr, hfs.2]), if_neg (by simp)]
      rfl

lemma fundAccount_ok_of (db : DB) (uid accId : Nat) (acc : Account) (q : Money)
    (fs : FundingSource) (now : Nat)
    (hfind : db.accounts.find? (fun a => a.id == accId && a.userId == uid) = some acc)
    (hact : acc.status = "active") (h1 : 1 ≤ q) (h2 : q ≤ 1000000)
    (hfs : fundingSourceAccepted fs = true) :
    fundAccount db uid ⟨accId, .num q, fs⟩ now true =
      (.ok (fundTxnBlock db accId q fs.type acc.balance now).1,
       fundApply db accId q fs.type now) := by
  rw [fundAccount_of_zod_ok db uid ⟨accId, .num q, fs⟩ now true q
        (zodParseFund_num_ok accId q fs h1 h2 hfs)]
  exact fundMutation_ok_of db uid accId acc q fs now hfind hact h1 h2 hfs

/-! ## C1: all-or-nothing funding -/

/-- C1: every `fundAccount` call either succeeds — the store gains exactly
one new transaction row (`depositRow`, carrying exactly the validated request
amount) and the matching account balance is increased by exactly that amount
(`fundApply`) — or fails, returning the store exactly as it was; no outcome
applies only one of the two writes. -/
theorem C1_fundAccount_atomic (db : DB) (uid : Nat) (input : FundInput) (now : Nat)
    (commitOk : Bool) :
    (∃ q res, zodParseFund input = .ok q ∧
      fundAccount db uid input now commitOk =
        (.ok res, fundApply db input.accountId q input.fundingSource.type now)) ∨
    (∃ e, fundAccount db uid input now commitOk = (.error e, db)) := by
  rcases hz : zodParseFund input with e | q
  · right
    exact ⟨e, fundAccount_of_zod_err db uid input now commitOk e hz⟩
  · rcases fundMutation_split db uid input.accountId q input.fundingSource now commitOk with
      ⟨res, hok⟩ | ⟨e, herr⟩
    · left
      exact ⟨q, res, rfl, by rw [fundAccount_of_zod_ok db uid input now commitOk q hz, hok]⟩
    · right
      exact ⟨e, by rw [fundAccount_of_zod_ok db uid input now commitOk q hz, herr]⟩

lemma fundMutation_notFound (db : DB) (uid accId : Nat) (q : Money) (fs : FundingSource)
    (now : Nat) (commitOk : Bool) (h1 : 1 ≤ q)
    (hfind : db.accounts.find? (fun a => a.id == accId && a.userId == uid) = none) :
    fundMutation db uid accId q fs now commitOk = (.error errNotFound, db) := by
  unfold fundMutation
  rw [if_neg (by intro hle; exact absurd (h1.trans hle) (by norm_num)),
      if_neg (not_lt.mpr h1), hfind]

lemma fundMutation_notActive (db : DB) (uid accId : Nat) (acc : Account) (q : Money)
    (fs : FundingSource) (now : Nat) (commitOk : Bool) (h1 : 1 ≤ q)
    (hfind : db.accounts.find? (fun a => a.id == accId && a.userId == uid) = some acc)
    (hst : acc.status ≠ "active") :
    fundMutation db uid accId q fs now commitOk = (.error errNotActive, db) := by
  unfold fundMutation
  rw [if_neg (by intro hle; exact absurd (h1.trans hle) (by norm_num)),
      if_neg (not_lt.mpr h1)]
  simp only [hfind]
  rw [if_pos (by simp only [bne_iff_ne, ne_eq]; exact hst)]

lemma ownFind_none (l : List Account) (accId uid : Nat)
    (h : ∀ a ∈ l, ¬(a.id = accId ∧ a.userId = uid)) :
    l.find? (fun a => a.id == accId && a.userId == uid) = none := by
  apply List.find?_eq_none.mpr
  intro a ha
  simp only [Bool.and_eq_true, beq_iff_eq]
  exact h a ha

/-! ## C7: fundAccount re-checks its own preconditions -/

/-- C7: `fundAccount` validates on the server no matter what the caller did:
a non-finite or non-positive amount is rejected with a `BAD_REQUEST`
validation error (one of the zod amount messages) and no store change; with
a validated amount, a missing account yields the `NOT_FOUND` error and a
non-active account the `BAD_REQUEST` "Account is not active" error, both
with no store change; and a successful call implies the amount was finite
and strictly positive and the account existed, owned and active. -/
theorem C7_fundAccount_rechecks_preconditions (db : DB) (uid : Nat) (input : FundInput)
    (now : Nat) (commitOk : Bool) :
    (¬ input.amount.posFinite →
      ∃ e, fundAccount db uid input now commitOk = (.error e, db) ∧
        e.code = "BAD_REQUEST" ∧ e.message ∈ amountValidationMsgs) ∧
    (∀ q, zodParseFund input = .ok q →
      db.accounts.find? (fun a => a.id == input.accountId && a.userId == uid) = none →
      fundAccount db uid input now commitOk = (.error errNotFound, db)) ∧
    (∀ q acc, zodParseFund input = .ok q →
      db.accounts.find? (fun a => a.id == input.accountId && a.userId == uid) = some acc →
      acc.status ≠ "active" →
      fundAccount db uid input now commitOk = (.error errNotActive, db)) ∧
    (∀ res db', fundAccount db uid input now commitOk = (.ok res, db') →
      input.amount.posFinite ∧
      ∃ acc, db.accounts.find? (fun a => a.id == input.accountId && a.userId == uid) = some acc ∧
        acc.status = "active") := by
  refine ⟨?_, ?_, ?_, ?_⟩
  · intro hnp
    rcases hj : input.amount with _ | _ | _ | c
    · refine ⟨⟨"BAD_REQUEST", "Expected number, received nan"⟩, ?_, rfl, by simp [amountValidationMsgs]⟩
      exact fundAccount_of_zod_err _ _ _ _ _ _
        (zodParseFund_err_amount _ _ (by rw [hj]; rfl))
    · refine ⟨⟨"BAD_REQUEST", "Amount cannot exceed $10,000"⟩, ?_, rfl, by simp [amountValidationMsgs]⟩
      exact fundAccount_of_zod_err _ _ _ _ _ _
        (zodParseFund_err_amount _ _ (by rw [hj]; rfl))
    · refine ⟨⟨"BAD_REQUEST", "Amount must be greater than $0.00"⟩, ?_, rfl, by simp [amountValidationMsgs]⟩
      exact fundAccount_of_zod_err _ _ _ _ _ _
        (zodParseFund_err_amount _ _ (by rw [hj]; rfl))
    · have hc : c ≤ 0 := by
        rw [hj] at hnp
        exact not_lt.mp (by simpa [JSNum.posFinite] using hnp)
      refine ⟨⟨"BAD_REQUEST", "Amount must be greater than $0.00"⟩, ?_, rfl, by simp [amountValidationMsgs]⟩
      refine fundAccount_of_zod_err _ _ _ _ _ _ (zodParseFund_err_amount _ _ ?_)
      rw [hj]
      simp only [zodAmount]
      rw [if_pos hc]
  · intro q hq hfind
    obtain ⟨hamt, -⟩ := zodParseFund_ok_inv input q hq
    obtain ⟨-, h1, -⟩ := zodAmount_ok_inv _ _ hamt
    rw [fundAccount_of_zod_ok db uid input now commitOk q hq]
    exact fundMutation_notFound db uid input.accountId q input.fundingSource now commitOk h1 hfind
  · intro q acc hq hfind hst
    obtain ⟨hamt, -⟩ := zodParseFund_ok_inv input q hq
    obtain ⟨-, h1, -⟩ := zodAmount_ok_inv _ _ hamt
    rw [fundAccount_of_zod_ok db uid input now commitOk q hq]
    exact fundMutation_notActive db uid input.accountId acc q input.fundingSource now commitOk
      h1 hfind hst
  · intro res db' h
    rcases hz : zodParseFund input with e | q
    · rw [fundAccount_of_zod_err db uid input now commitOk e hz] at h
      simp at h
    · obtain ⟨hamt, -⟩ := zodParseFund_ok_inv input q hz
      obtain ⟨hjq, h1, -⟩ := zodAmount_ok_inv _ _ hamt
      constructor
      · rw [hjq]
        show (0 : Money) < q
        exact lt_of_lt_of_le zero_lt_one h1
      · rw [fundAccount_of_zod_ok db uid input now commitOk q hz] at h
        rcases hfind : db.accounts.find? (fun a => a.id == input.accountId && a.userId == uid) with
          _ | acc
        · rw [fundMutation_notFound db uid input.accountId q input.fundingSource now commitOk
              h1 hfind] at h
          simp at h
        · by_cases hact : acc.status = "active"
          · exact ⟨acc, hfind, hact⟩
          · rw [fundMutation_notActive db uid input.accountId acc q input.fundingSource now
                commitOk h1 hfind hact] at h
            simp at h

/-- C7 witness: concrete instances of all four conjuncts — a zero amount is a
validation error; with a valid amount, a missing account is `NOT_FOUND`, a
frozen account is rejected as not active, and a success implies the
preconditions. -/
theorem C7_fundAccount_rechecks_preconditions_witness :
    (∃ e, fundAccount ⟨[⟨7, 42, "n", "checking", 0, "active"⟩], [], 8, 1⟩ 42
        ⟨7, .num 0, ⟨.bank, "x", some "123456789"⟩⟩ 5 true = (.error e,
          ⟨[⟨7, 42, "n", "checking", 0, "active"⟩], [], 8, 1⟩) ∧
      e.code = "BAD_REQUEST" ∧ e.message ∈ amountValidationMsgs) ∧
    (fundAccount ⟨[], [], 1, 1⟩ 42 ⟨7, .num 500, ⟨.bank, "x", some "123456789"⟩⟩ 5 true =
      (.error errNotFound, ⟨[], [], 1, 1⟩)) ∧
    (fundAccount ⟨[⟨7, 42, "n", "checking", 0, "frozen"⟩], [], 8, 1⟩ 42
        ⟨7, .num 500, ⟨.bank, "x", some "123456789"⟩⟩ 5 true =
      (.error errNotActive, ⟨[⟨7, 42, "n", "checking", 0, "frozen"⟩], [], 8, 1⟩)) ∧
    ((⟨7, .num 500, ⟨.bank, "x", some "123456789"⟩⟩ : FundInput).amount.posFinite ∧
      ∃ acc, (⟨[⟨7, 42, "n", "checking", 0, "active"⟩], [], 8, 1⟩ : DB).accounts.find?
          (fun a => a.id == (7 : Nat) && a.userId == (42 : Nat)) = some acc ∧
        acc.status = "active") := by
  refine ⟨?_, ?_, ?_, ?_⟩
  · exact (C7_fundAccount_rechecks_preconditions ⟨[⟨7, 42, "n", "checking", 0, "active"⟩], [], 8, 1⟩
      42 ⟨7, .num 0, ⟨.bank, "x", some "123456789"⟩⟩ 5 true).1 (by decide)
  · exact (C7_fundAccount_rechecks_preconditions ⟨[], [], 1, 1⟩ 42
      ⟨7, .num 500, ⟨.bank, "x", some "123456789"⟩⟩ 5 true).2.1 500 (by decide) (by decide)
  · exact (C7_fundAccount_rechecks_preconditions ⟨[⟨7, 42, "n", "checking", 0, "frozen"⟩], [], 8, 1⟩
      42 ⟨7, .num 500, ⟨.bank, "x", some "123456789"⟩⟩ 5 true).2.2.1 500
      ⟨7, 42, "n", "checking", 0, "frozen"⟩ (by decide) (by decide) (by decide)
  · exact (C7_fundAccount_rechecks_preconditions ⟨[⟨7, 42, "n", "checking", 0, "active"⟩], [], 8, 1⟩
      42 ⟨7, .num 500, ⟨.bank, "x", some "123456789"⟩⟩ 5 true).2.2.2
      ⟨some ⟨1, 7, "deposit", 500, "Funding from bank", "completed", 5, 5⟩, 500⟩
      ⟨[⟨7, 42, "n", "checking", 500, "active"⟩],
       [⟨1, 7, "deposit", 500, "Funding from bank", "completed", 5, 5⟩], 8, 2⟩ (by decide)

/-! ## C8: not-found and not-owned are indistinguishable -/

/-- C8: for a caller `uid` and an account id, when no account row matches the
(id, owner) pair — whether because no account with that id exists at all
(`db₁`) or because it exists under a different owner (`db₂`) — `fundAccount`
and `getTransactions` return identical failures, and the failure is the
single generic `NOT_FOUND` / "Account not found" error whenever the input
passes validation; the caller cannot learn whether the account exists under
another owner. -/
theorem C8_ownership_indistinguishable (db₁ db₂ : DB) (uid : Nat) (input : FundInput)
    (now : Nat) (commitOk : Bool)
    (h₁ : ∀ a ∈ db₁.accounts, ¬(a.id = input.accountId ∧ a.userId = uid))
    (h₂ : ∀ a ∈ db₂.accounts, ¬(a.id = input.accountId ∧ a.userId = uid)) :
    (fundAccount db₁ uid input now commitOk).1 = (fundAccount db₂ uid input now commitOk).1 ∧
    getTransactions db₁ uid input.accountId = getTransactions db₂ uid input.accountId ∧
    getTransactions db₁ uid input.accountId = .error errNotFound ∧
    (∀ q, zodParseFund input = .ok q →
      (fundAccount db₁ uid input now commitOk).1 = .error errNotFound) := by
  have hf₁ := ownFind_none db₁.accounts input.accountId uid h₁
  have hf₂ := ownFind_none db₂.accounts input.accountId uid h₂
  have hg₁ : getTransactions db₁ uid input.accountId = .error errNotFound := by
    unfold getTransactions
    rw [hf₁]
  have hg₂ : getTransactions db₂ uid input.accountId = .error errNotFound := by
    unfold getTransactions
    rw [hf₂]
  have hfund : ∀ q, zodParseFund input = .ok q →
      (fundAccount db₁ uid input now commitOk).1 = .error errNotFound := by
    intro q hq
    obtain ⟨hamt, -⟩ := zodParseFund_ok_inv input q hq
    obtain ⟨-, hone, -⟩ := zodAmount_ok_inv _ _ hamt
    rw [fundAccount_of_zod_ok db₁ uid input now commitOk q hq,
        fundMutation_notFound db₁ uid input.accountId q input.fundingSource now commitOk
          hone hf₁]
  refine ⟨?_, hg₁.trans hg₂.symm, hg₁, hfund⟩
  rcases hz : zodParseFund input with e | q
  · rw [fundAccount_of_zod_err db₁ uid input now commitOk e hz,
        fundAccount_of_zod_err db₂ uid input now commitOk e hz]
  · obtain ⟨hamt, -⟩ := zodParseFund_ok_inv input q hz
    obtain ⟨-, hone, -⟩ := zodAmount_ok_inv _ _ hamt
    rw [fundAccount_of_zod_ok db₁ uid input now commitOk q hz,
        fundAccount_of_zod_ok db₂ uid input now commitOk q hz,
        fundMutation_notFound db₁ uid input.accountId q input.fundingSource now commitOk
          hone hf₁,
        fundMutation_notFound db₂ uid input.accountId q input.fundingSource now commitOk
          hone hf₂]

/-- C8 witness: an empty store and a store holding the same account id under
a different owner produce literally the same failures. -/
theorem C8_ownership_indistinguishable_witness :
    (fundAccount ⟨[], [], 1, 1⟩ 42 ⟨7, .num 500, ⟨.bank, "x", some "123456789"⟩⟩ 5 true).1 =
      (fundAccount ⟨[⟨7, 999, "n", "checking", 0, "active"⟩], [], 8, 1⟩ 42
        ⟨7, .num 500, ⟨.bank, "x", some "123456789"⟩⟩ 5 true).1 ∧
    getTransactions ⟨[], [], 1, 1⟩ 42 7 =
      getTransactions ⟨[⟨7, 999, "n", "checking", 0, "active"⟩], [], 8, 1⟩ 42 7 ∧
    getTransactions ⟨[], [], 1, 1⟩ 42 7 = .error errNotFound := by
  have h := C8_ownership_indistinguishable ⟨[], [], 1, 1⟩
    ⟨[⟨7, 999, "n", "checking", 0, "active"⟩], [], 8, 1⟩ 42
    ⟨7, .num 500, ⟨.bank, "x", some "123456789"⟩⟩ 5 true (by decide) (by decide)
  exact ⟨h.1, h.2.1, h.2.2.1⟩

/-! ## C6: ordered, deterministic history -/

lemma insertTxnDesc_perm (t : Txn) (l : List Txn) : (insertTxnDesc t l).Perm (t :: l) := by
  induction l with
  | nil => exact List.Perm.refl _
  | cons u us ih =>
    unfold insertTxnDesc
    split
    · exact (ih.cons u).trans (List.Perm.swap t u us)
    · exact List.Perm.refl _

lemma sortTxnsDesc_perm (l : List Txn) : (sortTxnsDesc l).Perm l := by
  induction l with
  | nil => exact List.Perm.refl _
  | cons t ts ih => exact (insertTxnDesc_perm t (sortTxnsDesc ts)).trans (ih.cons t)

lemma insertTxnDesc_pairwise (t : Txn) (l : List Txn)
    (hl : l.Pairwise txnOrd) (hid : ∀ u ∈ l, t.id < u.id) :
    (insertTxnDesc t l).Pairwise txnOrd := by
  induction l with
  | nil => exact List.pairwise_singleton _ _
  | cons u us ih =>
    rcases List.pairwise_cons.mp hl with ⟨hu, hus⟩
    unfold insertTxnDesc
    split
    · rename_i hlt
      refine List.pairwise_cons.mpr ⟨?_, ih hus (fun w hw => hid w (by simp [hw]))⟩
      intro w hw
      rcases List.mem_cons.mp ((insertTxnDesc_perm t us).mem_iff.mp hw) with hw | hw
      · subst hw
        exact Or.inl hlt
      · exact hu w hw
    · rename_i hnlt
      have hle : u.createdAt ≤ t.createdAt := not_lt.mp hnlt
      refine List.pairwise_cons.mpr ⟨?_, hl⟩
      intro w hw
      rcases List.mem_cons.mp hw with hw | hw
      · subst hw
        rcases lt_or_eq_of_le hle with hlt | heq
        · exact Or.inl hlt
        · exact Or.inr ⟨heq.symm, hid w (by simp)⟩
      · rcases hu w hw with hlt | ⟨heq, _⟩
        · rcases lt_or_eq_of_le hle with hlt' | heq'
          · exact Or.inl (hlt.trans hlt')
          · rw [heq'] at hlt
            exact Or.inl hlt
        · rw [heq] at hle
          rcases lt_or_eq_of_le hle with hlt' | heq'
          · exact Or.inl hlt'
          · exact Or.inr ⟨heq'.symm, hid w (by simp [hw])⟩

lemma sortTxnsDesc_pairwise (l : List Txn) (h : l.Pairwise (fun a b => a.id < b.id)) :
    (sortTxnsDesc l).Pairwise txnOrd := by
  induction l with
  | nil => exact List.Pairwise.nil
  | cons t ts ih =>
    rcases List.pairwise_cons.mp h with ⟨ht, hts⟩
    refine insertTxnDesc_pairwise t (sortTxnsDesc ts) (ih hts) ?_
    intro u hu
    exact ht u ((sortTxnsDesc_perm ts).mem_iff.mp hu)

/-- C6: for an account owned by the caller, `getTransactions` succeeds and
returns the complete set of the account's transactions (a permutation of the
stored rows for that account), presented in the total order `txnOrd`
(`created_at` most recent first, ties broken deterministically by rowid —
the stable tie-break), every row enriched with the owning account's type;
the result is a function of the store, so any two calls against an unchanged
data set return the identical sequence. -/
theorem C6_getTransactions_ordered_stable (db : DB) (uid accId : Nat) (account : Account)
    (hfind : db.accounts.find? (fun a => a.id == accId && a.userId == uid) = some account)
    (hids : db.transactions.Pairwise (fun a b => a.id < b.id)) :
    ∃ l, getTransactions db uid accId = .ok l ∧
      (l.map (·.txn)).Perm (db.transactions.filter (fun t => t.accountId == accId)) ∧
      (l.map (·.txn)).Pairwise txnOrd ∧
      (∀ e ∈ l, e.accountType = account.accountType) ∧
      (∀ l₂, getTransactions db uid accId = .ok l₂ → l₂ = l) := by
  refine ⟨(sortTxnsDesc (db.transactions.filter (fun t => t.accountId == accId))).map
      (fun t => { txn := t, accountType := account.accountType }), ?_, ?_, ?_, ?_, ?_⟩
  · unfold getTransactions
    simp only [hfind]
  · simp only [List.map_map]
    have : ((fun e : EnrichedTxn => e.txn) ∘
        (fun t => ({ txn := t, accountType := account.accountType } : EnrichedTxn))) = id := by
      funext t
      rfl
    rw [this, List.map_id]
    exact sortTxnsDesc_perm _
  · simp only [List.map_map]
    have : ((fun e : EnrichedTxn => e.txn) ∘
        (fun t => ({ txn := t, accountType := account.accountType } : EnrichedTxn))) = id := by
      funext t
      rfl
    rw [this, List.map_id]
    exact sortTxnsDesc_pairwise _ (hids.filter _)
  · intro e he
    rcases List.mem_map.mp he with ⟨t, _, rfl⟩
    rfl
  · intro l₂ h₂
    have h₁ : getTransactions db uid accId =
        .ok ((sortTxnsDesc (db.transactions.filter (fun t => t.accountId == accId))).map
          (fun t => { txn := t, accountType := account.accountType })) := by
      unfold getTransactions
      simp only [hfind]
    rw [h₁] at h₂
    injection h₂ with h₂
    exact h₂.symm

/-- C6 witness: a store with three rows for the account, two sharing a
creation timestamp, is returned in `created_at`-descending order with the
rowid tie-break, and a repeated call returns the same list. -/
theorem C6_getTransactions_ordered_stable_witness :
    ∃ l, getTransactions ⟨[⟨7, 42, "n", "checking", 15, "active"⟩],
        [⟨1, 7, "deposit", 5, "d", "completed", 10, 10⟩,
         ⟨2, 7, "deposit", 6, "d", "completed", 20, 20⟩,
         ⟨3, 7, "deposit", 4, "d", "completed", 10, 10⟩], 8, 4⟩ 42 7 = .ok l ∧
      (l.map (·.txn)).Pairwise txnOrd ∧
      l.length = 3 := by
  obtain ⟨l, hok, hperm, hpw, henr, huniq⟩ := C6_getTransactions_ordered_stable
    ⟨[⟨7, 42, "n", "checking", 15, "active"⟩],
     [⟨1, 7, "deposit", 5, "d", "completed", 10, 10⟩,
      ⟨2, 7, "deposit", 6, "d", "completed", 20, 20⟩,
      ⟨3, 7, "deposit", 4, "d", "completed", 10, 10⟩], 8, 4⟩ 42 7
    ⟨7, 42, "n", "checking", 15, "active"⟩ (by decide) (by decide)
  refine ⟨l, hok, hpw, ?_⟩
  have := hperm.length_eq
  simp only [List.length_map] at this
  rw [this]
  decide

/-! ## C5: no lost updates under interleaving -/

lemma find?_map_of_pred_inv {α : Type} (l : List α) (f : α → α) (p : α → Bool)
    (h : ∀ a, p (f a) = p a) : (l.map f).find? p = (l.find? p).map f := by
  induction l with
  | nil => rfl
  | cons a as ih =>
    simp only [List.map_cons, List.find?]
    rw [h a]
    cases hpa : p a
    · exact ih
    · rfl

/-- `UPDATE accounts SET balance = balance + q WHERE id = accId` as a row map. -/
def updRow (accId : Nat) (q : Money) (a : Account) : Account :=
  if a.id == accId then { a with balance := a.balance + q } else a

lemma updRow_pred_inv (accId : Nat) (q : Money) (p : Account → Bool)
    (hp : ∀ a, p { a with balance := a.balance + q } = p a) :
    ∀ a, p (updRow accId q a) = p a := by
  intro a
  unfold updRow
  split
  · exact hp a
  · rfl

lemma fundApply_accounts (db : DB) (accId : Nat) (q : Money) (ty : FundingType) (now : Nat) :
    (fundApply db accId q ty now).accounts = db.accounts.map (updRow accId q) := rfl

lemma find?_byId_fundApply (db : DB) (accId : Nat) (q : Money) (ty : FundingType)
    (now : Nat) (acc : Account)
    (h : db.accounts.find? (fun a => a.id == accId) = some acc) :
    (fundApply db accId q ty now).accounts.find? (fun a => a.id == accId) =
      some { acc with balance := acc.balance + q } := by
  rw [fundApply_accounts,
      find?_map_of_pred_inv _ _ _
        (updRow_pred_inv accId q (fun b => b.id == accId) (fun a => rfl)), h]
  have hacc : (acc.id == accId) = true := by simpa using List.find?_some h
  show some (updRow accId q acc) = _
  unfold updRow
  rw [if_pos hacc]

lemma find?_byOwner_fundApply (db : DB) (accId uid : Nat) (q : Money) (ty : FundingType)
    (now : Nat) (acc : Account)
    (h : db.accounts.find? (fun a => a.id == accId && a.userId == uid) = some acc) :
    (fundApply db accId q ty now).accounts.find? (fun a => a.id == accId && a.userId == uid) =
      some { acc with balance := acc.balance + q } := by
  rw [fundApply_accounts,
      find?_map_of_pred_inv _ _ _
        (updRow_pred_inv accId q (fun b => b.id == accId && b.userId == uid) (fun a => rfl)), h]
  have hacc : (acc.id == accId && acc.userId == uid) = true := by
    simpa using List.find?_some h
  have hid : (acc.id == accId) = true := by
    simp only [Bool.and_eq_true] at hacc
    exact hacc.1
  show some (updRow accId q acc) = _
  unfold updRow
  rw [if_pos hid]

lemma fundApply_txns_filter (db : DB) (accId : Nat) (q : Money) (ty : FundingType) (now : Nat) :
    (fundApply db accId q ty now).transactions.filter (fun t => t.accountId == accId) =
      db.transactions.filter (fun t => t.accountId == accId) ++
        [depositRow db accId q ty now] := by
  show (db.transactions ++ [depositRow db accId q ty now]).filter _ = _
  rw [List.filter_append]
  simp [depositRow]

lemma runSched_spec (accId : Nat) (v : Money) (now : Nat) :
    ∀ (σ : List SchedEvent) (db : DB) (acc : Account),
      db.accounts.find? (fun a => a.id == accId) = some acc →
      (∃ acc', (runSched accId v now db σ).accounts.find? (fun a => a.id == accId) =
          some acc' ∧
        acc'.balance = acc.balance + (countTxnEvents σ : Money) * v) ∧
      ((runSched accId v now db σ).transactions.filter
          (fun t => t.accountId == accId)).length =
        (db.transactions.filter (fun t => t.accountId == accId)).length +
          countTxnEvents σ := by
  intro σ
  induction σ with
  | nil =>
    intro db acc hfind
    refine ⟨⟨acc, hfind, ?_⟩, ?_⟩
    · simp [countTxnEvents]
    · simp [countTxnEvents, runSched]
  | cons e σ' ih =>
    intro db acc hfind
    have hstep : runSched accId v now db (e :: σ') =
        runSched accId v now (fundStep accId v now db e) σ' := rfl
    rcases hph : e.phase with _ | _
    · have hdb : fundStep accId v now db e = db := by simp [fundStep, hph]
      have hcount : countTxnEvents (e :: σ') = countTxnEvents σ' := by
        simp [countTxnEvents, List.filter_cons, hph]
      rw [hstep, hdb, hcount]
      exact ih db acc hfind
    · have hdb : fundStep accId v now db e = fundApply db accId v .bank now := by
        simp only [fundStep, hph]
        rfl
      have hcount : countTxnEvents (e :: σ') = countTxnEvents σ' + 1 := by
        simp [countTxnEvents, List.filter_cons, hph]
      obtain ⟨⟨acc', hfind', hbal'⟩, hlen⟩ := ih (fundApply db accId v .bank now)
        { acc with balance := acc.balance + v }
        (find?_byId_fundApply db accId v .bank now acc hfind)
      rw [hstep, hdb]
      refine ⟨⟨acc', hfind', ?_⟩, ?_⟩
      · rw [hbal', hcount]
        show acc.balance + v + (countTxnEvents σ' : Money) * v =
          acc.balance + ((countTxnEvents σ' + 1 : Nat) : Money) * v
        push_cast
        ring
      · rw [hlen, fundApply_txns_filter, hcount, List.length_append]
        simp
        omega

/-- C5: an interleaved execution of `K` concurrent `fundAccount` calls of
amount `v` against a zero-balance account — each call one read-only
validation event plus one atomic transaction-block event, events interleaved
arbitrarily (`ValidSched`) — always ends with balance exactly `K * v` and
exactly `K` transaction rows, because the balance update is the relative
`balance = balance + v` applied inside the storage engine's atomic unit, not
a read-compute-write in application code. -/
theorem C5_concurrent_funding_no_lost_updates (K : Nat) (v : Money) (db : DB)
    (accId now : Nat) (σ : List SchedEvent) (acc : Account)
    (hσ : ValidSched K σ)
    (hfind : db.accounts.find? (fun a => a.id == accId) = some acc)
    (hbal : acc.balance = 0)
    (hrows : db.transactions.filter (fun t => t.accountId == accId) = []) :
    (∃ acc', (runSched accId v now db σ).accounts.find? (fun a => a.id == accId) =
        some acc' ∧ acc'.balance = (K : Money) * v) ∧
    ((runSched accId v now db σ).transactions.filter
        (fun t => t.accountId == accId)).length = K := by
  have hcount : countTxnEvents σ = K := by
    have hlen := hσ.1.length_eq
    simpa [countTxnEvents] using hlen
  obtain ⟨⟨acc', hfind', hbal'⟩, hlen⟩ := runSched_spec accId v now σ db acc hfind
  refine ⟨⟨acc', hfind', ?_⟩, ?_⟩
  · rw [hbal', hbal, hcount, zero_add]
  · rw [hlen, hrows, hcount]
    simp

/-- C5 witness: two concurrent $5.00 calls against a fresh zero-balance
account, with both validation reads before both atomic blocks, end at
balance 1000 cents and two rows. -/
theorem C5_concurrent_funding_no_lost_updates_witness :
    (∃ acc', (runSched 7 500 5 ⟨[⟨7, 42, "n", "checking", 0, "active"⟩], [], 8, 1⟩
        [⟨0, .check⟩, ⟨1, .check⟩, ⟨0, .txnBlock⟩, ⟨1, .txnBlock⟩]).accounts.find?
          (fun a => a.id == (7 : Nat)) = some acc' ∧ acc'.balance = (2 : Money) * 500) ∧
    ((runSched 7 500 5 ⟨[⟨7, 42, "n", "checking", 0, "active"⟩], [], 8, 1⟩
        [⟨0, .check⟩, ⟨1, .check⟩, ⟨0, .txnBlock⟩, ⟨1, .txnBlock⟩]).transactions.filter
        (fun t => t.accountId == (7 : Nat))).length = 2 := by
  apply C5_concurrent_funding_no_lost_updates 2 500
    ⟨[⟨7, 42, "n", "checking", 0, "active"⟩], [], 8, 1⟩ 7 5
    [⟨0, .check⟩, ⟨1, .check⟩, ⟨0, .txnBlock⟩, ⟨1, .txnBlock⟩]
    ⟨7, 42, "n", "checking", 0, "active"⟩
  · refine ⟨by decide, by decide, ?_⟩
    intro k hk
    interval_cases k <;> decide
  · decide
  · decide
  · decide

/-! ## C2: conservation over a sequence of deposits -/

lemma all_false_of_find?_isSome_false {α : Type} (p : α → Bool) (l : List α)
    (h : (l.find? p).isSome = false) : ∀ a ∈ l, p a = false := by
  intro a ha
  cases hfind : l.find? p with
  | none =>
    have := List.find?_eq_none.mp hfind a ha
    cases hpa : p a
    · rfl
    · exact absurd hpa this
  | some b => rw [hfind] at h; cases h

lemma createAccount_ok_inv (db : DB) (uid : Nat) (aty : AccountType) (draws : Nat → Nat)
    (fuel : Nat) (res : Account) (db' : DB)
    (h : createAccount db uid aty draws fuel = (.ok res, db')) :
    res.id = db.nextAccountId ∧ res.userId = uid ∧ res.accountType = aty.str ∧
    res.balance = 0 ∧ res.status = "active" ∧
    db' = { db with accounts := db.accounts ++ [res],
                    nextAccountId := db.nextAccountId + 1 } := by
  unfold createAccount at h
  rcases hdup : db.accounts.find? (fun a => a.userId == uid && a.accountType == aty.str) with
    _ | a
  · rw [hdup] at h
    rcases hloop : accountNumberLoop
        (fun s => (db.accounts.find? (fun a => a.accountNumber == s)).isSome)
        draws 0 fuel with _ | num
    · rw [hloop] at h; simp at h
    · rw [hloop] at h
      have hfreshSome := accountNumberLoop_some_fresh _ draws 0 fuel num hloop
      have hfresh : ∀ a ∈ db.accounts, (a.accountNumber == num) = false :=
        all_false_of_find?_isSome_false _ _ hfreshSome
      have hread :
          ((db.accounts ++
            [{ id := db.nextAccountId, userId := uid, accountNumber := num,
               accountType := aty.str, balance := 0, status := "active" : Account}]).find?
            (fun a => a.accountNumber == num)) =
          some { id := db.nextAccountId, userId := uid, accountNumber := num,
                 accountType := aty.str, balance := 0, status := "active" } := by
        rw [find?_append_of_none _ _ _ hfresh]
        simp [List.find?]
      simp only [hread, createAccountReadBack, Prod.mk.injEq, Except.ok.injEq] at h
      rcases h with ⟨hres, hdb⟩
      rw [← hres, ← hdb]
      exact ⟨rfl, rfl, rfl, rfl, rfl, rfl⟩
  · rw [hdup] at h; simp at h

lemma fundSeq_spec (uid accId : Nat) (fs : FundingSource) (now : Nat)
    (hfs : fundingSourceAccepted fs = true) :
    ∀ (amts : List Money) (db : DB) (acc : Account),
      db.accounts.find? (fun a => a.id == accId && a.userId == uid) = some acc →
      acc.status = "active" →
      (∀ a ∈ amts, 1 ≤ a ∧ a ≤ 1000000) →
      FundSeqOk uid accId fs now db amts ∧
      (∃ acc', (fundSeq db uid accId amts fs now).accounts.find?
          (fun a => a.id == accId && a.userId == uid) = some acc' ∧
        acc'.balance = acc.balance + amts.sum ∧ acc'.status = "active" ∧
        acc'.accountType = acc.accountType) ∧
      ((fundSeq db uid accId amts fs now).transactions.filter
          (fun t => t.accountId == accId)).map (·.amount) =
        (db.transactions.filter (fun t => t.accountId == accId)).map (·.amount) ++ amts := by
  intro amts
  induction amts with
  | nil =>
    intro db acc hfind hact _
    refine ⟨trivial, ⟨acc, hfind, by simp, hact, rfl⟩, by simp [fundSeq]⟩
  | cons a as ih =>
    intro db acc hfind hact hv
    have h1 : 1 ≤ a := (hv a (by simp)).1
    have h2 : a ≤ 1000000 := (hv a (by simp)).2
    have hcall := fundAccount_ok_of db uid accId acc a fs now hfind hact h1 h2 hfs
    have hstep : fundSeq db uid accId (a :: as) fs now =
        fundSeq (fundApply db accId a fs.type now) uid accId as fs now := by
      show fundSeq ((fundAccount db uid ⟨accId, .num a, fs⟩ now true).2) uid accId as fs now = _
      rw [hcall]
    have hfind₁ := find?_byOwner_fundApply db accId uid a fs.type now acc hfind
    obtain ⟨hok, ⟨acc', hfind', hbal', hst', hty'⟩, hfilter⟩ :=
      ih (fundApply db accId a fs.type now) { acc with balance := acc.balance + a }
        hfind₁ hact (fun x hx => hv x (by simp [hx]))
    refine ⟨⟨_, _, hcall, hok⟩, ⟨acc', by rw [hstep]; exact hfind', ?_, hst', hty'⟩, ?_⟩
    · rw [hbal']
      show acc.balance + a + as.sum = acc.balance + (a :: as).sum
      rw [List.sum_cons]
      ring
    · rw [hstep, hfilter, fundApply_txns_filter]
      simp [depositRow]

/-- C2: open an account (balance 0), then run any sequence of `fundAccount`
calls with valid amounts `a₁..aₙ` against it, nothing interleaved: every
call succeeds (`FundSeqOk`), the stored balance ends at exactly
`a₁ + ... + aₙ`, and `getTransactions` returns exactly `n` rows whose
amounts sum to the same total. -/
theorem C2_conservation (db₀ : DB) (uid : Nat) (aty : AccountType) (draws : Nat → Nat)
    (fuel : Nat) (acc : Account) (db₁ : DB) (amts : List Money) (fs : FundingSource)
    (now : Nat)
    (hcreate : createAccount db₀ uid aty draws fuel = (.ok acc, db₁))
    (hwfA : ∀ a ∈ db₀.accounts, a.id < db₀.nextAccountId)
    (hwfT : ∀ t ∈ db₀.transactions, t.accountId < db₀.nextAccountId)
    (hamts : ∀ a ∈ amts, 1 ≤ a ∧ a ≤ 1000000)
    (hfs : fundingSourceAccepted fs = true) :
    FundSeqOk uid acc.id fs now db₁ amts ∧
    (∃ acc', (fundSeq db₁ uid acc.id amts fs now).accounts.find?
        (fun a => a.id == acc.id && a.userId == uid) = some acc' ∧
      acc'.balance = amts.sum) ∧
    (∃ l, getTransactions (fundSeq db₁ uid acc.id amts fs now) uid acc.id = .ok l ∧
      l.length = amts.length ∧ (l.map (·.txn.amount)).sum = amts.sum) := by
  obtain ⟨hid, huid, -, hbal0, hst, hdb₁⟩ :=
    createAccount_ok_inv db₀ uid aty draws fuel acc db₁ hcreate
  have hfind₁ : db₁.accounts.find? (fun a => a.id == acc.id && a.userId == uid) = some acc := by
    rw [hdb₁]
    show (db₀.accounts ++ [acc]).find? _ = some acc
    rw [find?_append_of_none _ _ _ ?_]
    · simp [List.find?, huid]
    · intro a ha
      have hlt := hwfA a ha
      have hne : (a.id == acc.id) = false := by
        rw [hid]
        simp only [beq_eq_false_iff_ne, ne_eq]
        omega
      simp [hne]
  have hfilter₁ : db₁.transactions.filter (fun t => t.accountId == acc.id) = [] := by
    rw [hdb₁]
    show db₀.transactions.filter _ = []
    rw [List.filter_eq_nil_iff]
    intro t ht
    have hlt := hwfT t ht
    rw [hid]
    simp only [beq_iff_eq]
    omega
  obtain ⟨hok, ⟨acc', hfind', hbal', hst', -⟩, hfilter'⟩ :=
    fundSeq_spec uid acc.id fs now hfs amts db₁ acc hfind₁ hst hamts
  refine ⟨hok, ⟨acc', hfind', by rw [hbal', hbal0, zero_add]⟩, ?_⟩
  have hg : getTransactions (fundSeq db₁ uid acc.id amts fs now) uid acc.id =
      .ok ((sortTxnsDesc ((fundSeq db₁ uid acc.id amts fs now).transactions.filter
          (fun t => t.accountId == acc.id))).map
        (fun t => { txn := t, accountType := acc'.accountType })) := by
    unfold getTransactions
    simp only [hfind']
  have hmapamt : ((fundSeq db₁ uid acc.id amts fs now).transactions.filter
      (fun t => t.accountId == acc.id)).map (·.amount) = amts := by
    rw [hfilter', hfilter₁]
    rfl
  have hlenF : ((fundSeq db₁ uid acc.id amts fs now).transactions.filter
      (fun t => t.accountId == acc.id)).length = amts.length := by
    have hcg := congrArg List.length hmapamt
    simpa [List.length_map] using hcg
  refine ⟨_, hg, ?_, ?_⟩
  · rw [List.length_map,
        (sortTxnsDesc_perm ((fundSeq db₁ uid acc.id amts fs now).transactions.filter
          (fun t => t.accountId == acc.id))).length_eq, hlenF]
  · have hcomp : (((sortTxnsDesc ((fundSeq db₁ uid acc.id amts fs now).transactions.filter
        (fun t => t.accountId == acc.id))).map
          (fun t => ({ txn := t, accountType := acc'.accountType } : EnrichedTxn))).map
        (·.txn.amount)) =
        ((sortTxnsDesc ((fundSeq db₁ uid acc.id amts fs now).transactions.filter
          (fun t => t.accountId == acc.id))).map (·.amount)) := by
      rw [List.map_map]
      rfl
    rw [hcomp,
        ((sortTxnsDesc_perm ((fundSeq db₁ uid acc.id amts fs now).transactions.filter
          (fun t => t.accountId == acc.id))).map (·.amount)).sum_eq, hmapamt]

/-- C2 witness: open an account, fund it with 500 then 1000 cents: balance
1500, two rows summing to 1500, both calls successful. -/
theorem C2_conservation_witness :
    FundSeqOk 42 1 ⟨.bank, "x", some "123456789"⟩ 5 ⟨[⟨1, 42, "0000000005", "checking", 0,
        "active"⟩], [], 2, 1⟩ [500, 1000] ∧
    (∃ acc', (fundSeq ⟨[⟨1, 42, "0000000005", "checking", 0, "active"⟩], [], 2, 1⟩ 42 1
        [500, 1000] ⟨.bank, "x", some "123456789"⟩ 5).accounts.find?
          (fun a => a.id == (1 : Nat) && a.userId == (42 : Nat)) = some acc' ∧
      acc'.balance = ([500, 1000] : List Money).sum) ∧
    (∃ l, getTransactions (fundSeq ⟨[⟨1, 42, "0000000005", "checking", 0, "active"⟩], [], 2, 1⟩
        42 1 [500, 1000] ⟨.bank, "x", some "123456789"⟩ 5) 42 1 = .ok l ∧
      l.length = ([500, 1000] : List Money).length ∧
      (l.map (·.txn.amount)).sum = ([500, 1000] : List Money).sum) := by
  have h := C2_conservation ⟨[], [], 1, 1⟩ 42 .checking (fun _ => 5) 1
    ⟨1, 42, "0000000005", "checking", 0, "active"⟩
    ⟨[⟨1, 42, "0000000005", "checking", 0, "active"⟩], [], 2, 1⟩ [500, 1000]
    ⟨.bank, "x", some "123456789"⟩ 5 (by decide) (by decide) (by decide) (by decide)
    (by decide)
  exact h

/-- C10 witness: the maximal 32-bit draw yields "0294967295" — 10 characters,
value 294967295 < 10^9, leading character `'0'`. -/
theorem C10_generateAccountNumber_low_space_witness :
    (generateAccountNumber 4294967295).length = 10 ∧
    ('0' ∈ (generateAccountNumber 4294967295).toList ∧ ('0' : Char).isDigit = true) ∧
    decodeDigits (generateAccountNumber 4294967295).toList = 4294967295 % 1000000000 ∧
    (generateAccountNumber 4294967295).toList.head? = some '0' := by
  have h := C10_generateAccountNumber_low_space 4294967295
  exact ⟨h.1, ⟨by decide, h.2.1 '0' (by decide)⟩, h.2.2.1, h.2.2.2.2⟩
